import Mathlib

/-!
Formal model of the VXL physiological-signal pipeline
(`src/include/filters.h`, `src/include/wavelet.h`,
`src/include/spo2_custom.h`).

Floating-point arithmetic is embedded over the real numbers.  Where the
source code tests `isnan`/`isinf`, the value domain is embedded as
`Option ℝ`: `some v` is a finite float of value `v`, `none` is any
non-finite float (NaN or an infinity); arithmetic on `Option ℝ` is
absorbing in `none`, matching IEEE propagation of non-finite values
through the add/subtract/multiply operations used by the filter cascade.
Unsigned integer state (`uint32_t` buffers, millisecond timestamps) is
embedded as `ℕ`, with C unsigned subtraction of timestamps modelled by
truncated subtraction under the monotone-clock assumption.
-/

noncomputable section

namespace VXL

/-
## Biquad filter sections (`filters.h`)

`struct BiquadCoeffs`, `struct BiquadState` and
`SignalFilter::applyBiquad` (filters.h lines 23-31, 107-118).
-/

structure BiquadCoeffs where
  b0 : ℝ
  b1 : ℝ
  b2 : ℝ
  a1 : ℝ
  a2 : ℝ

structure BiquadState where
  x1 : ℝ
  x2 : ℝ
  y1 : ℝ
  y2 : ℝ

/-- `SignalFilter::applyBiquad` (filters.h 107-118): the direct-form
recurrence on real-embedded floats, returning the output together with
the shifted delay-line state. -/
def applyBiquad (x : ℝ) (c : BiquadCoeffs) (s : BiquadState) : ℝ × BiquadState :=
  let y := c.b0 * x + c.b1 * s.x1 + c.b2 * s.x2 - c.a1 * s.y1 - c.a2 * s.y2
  (y, ⟨x, s.x1, y, s.y1⟩)

/-
## The IEEE finite/non-finite domain used by `SignalFilter::process`
-/

/-- A float value: `some v` is finite with value `v`, `none` is NaN/Inf. -/
abbrev FVal : Type := Option ℝ

/-- Float addition: non-finite operands poison the result. -/
def addF : FVal → FVal → FVal
  | some a, some b => some (a + b)
  | _, _ => none

/-- Float subtraction: non-finite operands poison the result. -/
def subF : FVal → FVal → FVal
  | some a, some b => some (a - b)
  | _, _ => none

/-- Multiplication by a finite coefficient: `none` stays `none`. -/
def smulF (a : ℝ) : FVal → FVal :=
  Option.map (fun x => a * x)

structure BiquadStateF where
  x1 : FVal
  x2 : FVal
  y1 : FVal
  y2 : FVal

/-- `SignalFilter::applyBiquad` on the finite/non-finite domain. -/
def applyBiquadF (x : FVal) (c : BiquadCoeffs) (s : BiquadStateF) : FVal × BiquadStateF :=
  let y := subF (subF (addF (addF (smulF c.b0 x) (smulF c.b1 s.x1)) (smulF c.b2 s.x2))
      (smulF c.a1 s.y1)) (smulF c.a2 s.y2)
  (y, ⟨x, s.x1, y, s.y1⟩)

/-- Coefficient sets held by a `SignalFilter` instance (computed once in
`SignalFilter::init`; finite constants during steady-state processing). -/
structure FilterCoeffs where
  notch50 : BiquadCoeffs
  notch100 : BiquadCoeffs
  hp : BiquadCoeffs
  lp : BiquadCoeffs

/-- The mutable state of a `SignalFilter` (filters.h 38-56). -/
structure FilterStateF where
  dcx1 : FVal
  dcy1 : FVal
  notch50 : BiquadStateF
  notch100 : BiquadStateF
  hp : BiquadStateF
  lp : BiquadStateF

/-- `SignalFilter::applyDCBlocker` (filters.h 149-154):
`y = x - dc_x1 + 0.995 * dc_y1`. -/
def applyDCBlockerF (s : FilterStateF) (x : FVal) : FVal × FilterStateF :=
  let y := addF (subF x s.dcx1) (smulF 0.995 s.dcy1)
  (y, { s with dcx1 := x, dcy1 := y })

/-- `SignalFilter::applyNotchFilters` (filters.h 157-161). -/
def applyNotchFiltersF (c : FilterCoeffs) (s : FilterStateF) (x : FVal) :
    FVal × FilterStateF :=
  let r50 := applyBiquadF x c.notch50 s.notch50
  let r100 := applyBiquadF r50.1 c.notch100 s.notch100
  (r100.1, { s with notch50 := r50.2, notch100 := r100.2 })

/-- `SignalFilter::applyBandpass` (filters.h 164-168). -/
def applyBandpassF (c : FilterCoeffs) (s : FilterStateF) (x : FVal) :
    FVal × FilterStateF :=
  let rhp := applyBiquadF x c.hp s.hp
  let rlp := applyBiquadF rhp.1 c.lp s.lp
  (rlp.1, { s with hp := rhp.2, lp := rlp.2 })

/-- The full cascade body of `SignalFilter::process` (filters.h 176-185):
DC blocker, notch 50 Hz, notch 100 Hz, high-pass, low-pass. -/
def cascadeF (c : FilterCoeffs) (s : FilterStateF) (x : FVal) : FVal × FilterStateF :=
  let r1 := applyDCBlockerF s x
  let r2 := applyNotchFiltersF c r1.2 r1.1
  let r3 := applyBandpassF c r2.2 r2.1
  r3

/-- The output guard at the end of `SignalFilter::process`
(filters.h 187-191): `if (isnan(y) || isinf(y)) return 0; return y;`. -/
def outGuardF (r : FVal × FilterStateF) : FVal × FilterStateF :=
  match r.1 with
  | none => (some 0, r.2)
  | some yv => (some yv, r.2)

/-- `SignalFilter::process` (filters.h 171-192): substitute 0 for a
non-finite input before the cascade, and for a non-finite cascade output
after it. -/
def processF (c : FilterCoeffs) (s : FilterStateF) (x : FVal) : FVal × FilterStateF :=
  match x with
  | none => (some 0, s)
  | some xv => outGuardF (cascadeF c s (some xv))

/-
## Claim theorems for the filter bank
-/

/-- Claim C6: for every input `x`, coefficient set and biquad state, one
application of the biquad returns
`y = b0*x + b1*x1 + b2*x2 - a1*y1 - a2*y2` and updates the state to
`(x, x1, y, y1)`, shifting both two-sample delay lines by one. -/
theorem applyBiquad_recurrence (x : ℝ) (c : BiquadCoeffs) (s : BiquadState) :
    applyBiquad x c s =
      (c.b0 * x + c.b1 * s.x1 + c.b2 * s.x2 - c.a1 * s.y1 - c.a2 * s.y2,
        ⟨x, s.x1,
          c.b0 * x + c.b1 * s.x1 + c.b2 * s.x2 - c.a1 * s.y1 - c.a2 * s.y2,
          s.y1⟩) :=
  rfl

lemma outGuardF_of_none (r : FVal × FilterStateF) (h : r.1 = none) :
    outGuardF r = (some 0, r.2) := by
  unfold outGuardF
  rw [h]

lemma outGuardF_of_some (r : FVal × FilterStateF) (yv : ℝ) (h : r.1 = some yv) :
    outGuardF r = (some yv, r.2) := by
  unfold outGuardF
  rw [h]

/-- Claim C5: for every coefficient set, filter state and input `x`,
`SignalFilter::process` returns 0 when `x` is non-finite, returns 0 when
the full cascade output is non-finite, returns the cascade output when
both are finite, and never returns a non-finite value. -/
theorem signalFilter_process_finite (c : FilterCoeffs) (s : FilterStateF) (x : FVal) :
    (x = none → (processF c s x).1 = some 0) ∧
    (∀ xv : ℝ, x = some xv → (cascadeF c s x).1 = none → (processF c s x).1 = some 0) ∧
    (∀ (xv yv : ℝ), x = some xv → (cascadeF c s x).1 = some yv →
      (processF c s x).1 = some yv) ∧
    (processF c s x).1 ≠ none := by
  cases x with
  | none =>
    refine ⟨fun _ => rfl, ?_, ?_, ?_⟩
    · intro xv hxv
      exact absurd hxv (by simp)
    · intro xv yv hxv
      exact absurd hxv (by simp)
    · intro h
      exact Option.noConfusion h
  | some xv =>
    have hp : processF c s (some xv) = outGuardF (cascadeF c s (some xv)) := rfl
    cases hy : (cascadeF c s (some xv)).1 with
    | none =>
      have hout : processF c s (some xv) = (some 0, (cascadeF c s (some xv)).2) := by
        rw [hp]
        exact outGuardF_of_none _ hy
      refine ⟨fun h => Option.noConfusion h, ?_, ?_, ?_⟩
      · intro xw hxw hc
        rw [hout]
      · intro xw yw hxw hc
        exact absurd hc (by simp)
      · rw [hout]
        simp
    | some yv =>
      have hout : processF c s (some xv) = (some yv, (cascadeF c s (some xv)).2) := by
        rw [hp]
        exact outGuardF_of_some _ _ hy
      refine ⟨fun h => Option.noConfusion h, ?_, ?_, ?_⟩
      · intro xw hxw hc
        exact absurd hc (by simp)
      · intro xw yw hxw hc
        rw [hout]
        exact hc
      · rw [hout]
        simp

/-- Witness for C5: a concrete instance, with all coefficients and delay
registers zero and a non-finite input, on which the theorem yields the
substituted output 0. -/
theorem signalFilter_process_finite_witness :
    (processF ⟨⟨0, 0, 0, 0, 0⟩, ⟨0, 0, 0, 0, 0⟩, ⟨0, 0, 0, 0, 0⟩, ⟨0, 0, 0, 0, 0⟩⟩
      ⟨some 0, some 0, ⟨some 0, some 0, some 0, some 0⟩,
        ⟨some 0, some 0, some 0, some 0⟩, ⟨some 0, some 0, some 0, some 0⟩,
        ⟨some 0, some 0, some 0, some 0⟩⟩ none).1 = some 0 :=
  (signalFilter_process_finite _ _ none).1 rfl

/-
## Haar wavelet denoiser (`wavelet.h`)

`WaveletDenoiser::haarDecompose` (67-78), `haarReconstruct` (81-91) and
`calculateThreshold` (39-54), with the float constant `sqrt2` embedded
as the real `Real.sqrt 2` (the claim's idealisation) and the signal as a
list of reals processed pairwise from the front, exactly as the C loops
index `2*i, 2*i+1` for `i < length/2`.
-/

/-- `WaveletDenoiser::haarDecompose` (wavelet.h 67-78): pairwise
approximation `(s1+s2)/sqrt2` and detail `(s1-s2)/sqrt2`; a trailing
unpaired element is dropped, as `halfLen = length/2` floors. -/
def haarDecompose : List ℝ → List ℝ × List ℝ
  | s1 :: s2 :: rest =>
    let r := haarDecompose rest
    ((s1 + s2) / Real.sqrt 2 :: r.1, (s1 - s2) / Real.sqrt 2 :: r.2)
  | _ => ([], [])

/-- `WaveletDenoiser::haarReconstruct` (wavelet.h 81-91): inverse pairing
`(a+d)/sqrt2, (a-d)/sqrt2`. -/
def haarReconstruct : List ℝ → List ℝ → List ℝ
  | a :: as, d :: ds =>
    (a + d) / Real.sqrt 2 :: (a - d) / Real.sqrt 2 :: haarReconstruct as ds
  | _, _ => []

/-- `WaveletDenoiser::calculateThreshold` (wavelet.h 39-54), with
`WAVELET_THRESHOLD_MULTIPLIER = 1.5` (config.h 76) and C `log` being the
natural logarithm. -/
def calculateThreshold (data : List ℝ) : ℝ :=
  let sum := data.sum
  let sumSq := (data.map fun x => x * x).sum
  let mean := sum / (data.length : ℝ)
  let variance := sumSq / (data.length : ℝ) - mean * mean
  let sigma := Real.sqrt (max variance 0)
  sigma * Real.sqrt (2 * Real.log (data.length : ℝ)) * 1.5

/-- Arithmetic mean of a buffered window, as the spec states it. -/
def meanList (data : List ℝ) : ℝ := data.sum / (data.length : ℝ)

/-- Standard deviation of a buffered window (root of the mean squared
deviation, the formula the spec's sigma denotes). -/
def stdDevList (data : List ℝ) : ℝ :=
  Real.sqrt ((data.map fun x => (x - meanList data) ^ 2).sum / (data.length : ℝ))

/-- The working approximation after `k` levels of the forward loop of
`WaveletDenoiser::processBuffer` (wavelet.h 106-124). -/
def approxIter : ℕ → List ℝ → List ℝ
  | 0, w => w
  | k + 1, w => (haarDecompose (approxIter k w)).1

/-- The detail coefficients stored at decomposition level `k` by
`WaveletDenoiser::processBuffer` (wavelet.h 113-116). -/
def levelDetails (k : ℕ) (w : List ℝ) : List ℝ :=
  (haarDecompose (approxIter k w)).2

lemma list_sq_dev_sum (data : List ℝ) (m : ℝ) :
    (data.map fun x => (x - m) ^ 2).sum =
      (data.map fun x => x * x).sum - 2 * m * data.sum + (data.length : ℝ) * m ^ 2 := by
  induction data with
  | nil => simp
  | cons a t ih =>
    simp only [List.map_cons, List.sum_cons, List.length_cons, Nat.cast_succ, ih]
    ring

lemma variance_eq_meansq (data : List ℝ) (h : 0 < data.length) :
    (data.map fun x => x * x).sum / (data.length : ℝ) - meanList data * meanList data =
      (data.map fun x => (x - meanList data) ^ 2).sum / (data.length : ℝ) := by
  have hn : ((data.length : ℝ)) ≠ 0 := Nat.cast_ne_zero.mpr h.ne'
  rw [list_sq_dev_sum data (meanList data)]
  unfold meanList
  field_simp
  ring

lemma sq_dev_sum_nonneg (data : List ℝ) (m : ℝ) :
    0 ≤ (data.map fun x => (x - m) ^ 2).sum := by
  apply List.sum_nonneg
  intro x hx
  obtain ⟨y, _, rfl⟩ := List.mem_map.mp hx
  positivity

lemma calculateThreshold_eq (data : List ℝ) (h : 0 < data.length) :
    calculateThreshold data =
      stdDevList data * Real.sqrt (2 * Real.log (data.length : ℝ)) * 1.5 := by
  have hn : (0 : ℝ) ≤ (data.length : ℝ) := Nat.cast_nonneg _
  have hv := variance_eq_meansq data h
  have hnn : 0 ≤ (data.map fun x => (x - meanList data) ^ 2).sum / (data.length : ℝ) :=
    div_nonneg (sq_dev_sum_nonneg data _) hn
  unfold calculateThreshold stdDevList meanList
  unfold meanList at hv hnn
  dsimp only
  rw [hv, max_eq_left hnn]

/-- Claim C4: at every decomposition level of the batch wavelet denoiser,
the noise threshold computed by `calculateThreshold` on that level's
detail coefficients equals `sigma * sqrt(2 * ln N) * multiplier`, where
`sigma` is the standard deviation of the level's detail coefficients and
`N` their number. -/
theorem levelThreshold_universal (w : List ℝ) (level : ℕ)
    (h : 0 < (levelDetails level w).length) :
    calculateThreshold (levelDetails level w) =
      stdDevList (levelDetails level w) *
        Real.sqrt (2 * Real.log ((levelDetails level w).length : ℝ)) * 1.5 :=
  calculateThreshold_eq _ h

/-- Witness for C4: level 0 of the block `[1,2,3,4]` has two detail
coefficients, and the theorem applies to it. -/
theorem levelThreshold_universal_witness :
    0 < (levelDetails 0 [(1 : ℝ), 2, 3, 4]).length ∧
      calculateThreshold (levelDetails 0 [(1 : ℝ), 2, 3, 4]) =
        stdDevList (levelDetails 0 [(1 : ℝ), 2, 3, 4]) *
          Real.sqrt (2 * Real.log ((levelDetails 0 [(1 : ℝ), 2, 3, 4]).length : ℝ)) * 1.5 :=
  ⟨by norm_num [levelDetails, approxIter, haarDecompose],
    levelThreshold_universal _ 0 (by norm_num [levelDetails, approxIter, haarDecompose])⟩

lemma haarDecompose_cons (s1 s2 : ℝ) (rest : List ℝ) :
    haarDecompose (s1 :: s2 :: rest) =
      ((s1 + s2) / Real.sqrt 2 :: (haarDecompose rest).1,
        (s1 - s2) / Real.sqrt 2 :: (haarDecompose rest).2) := rfl

lemma haarReconstruct_cons (a d : ℝ) (as ds : List ℝ) :
    haarReconstruct (a :: as) (d :: ds) =
      (a + d) / Real.sqrt 2 :: (a - d) / Real.sqrt 2 :: haarReconstruct as ds := rfl

theorem haar_roundtrip_even : ∀ (x : List ℝ), x.length % 2 = 0 →
    haarReconstruct (haarDecompose x).1 (haarDecompose x).2 = x
  | [], _ => rfl
  | [a], h => by simp at h
  | a :: b :: rest, h => by
    have hlen : rest.length % 2 = 0 := by
      simp only [List.length_cons] at h
      omega
    have ih := haar_roundtrip_even rest hlen
    have hsq : Real.sqrt 2 * Real.sqrt 2 = 2 := Real.mul_self_sqrt (by norm_num)
    have h1 : ((a + b) / Real.sqrt 2 + (a - b) / Real.sqrt 2) / Real.sqrt 2 = a := by
      rw [div_add_div_same, div_div, hsq]
      ring_nf
    have h2 : ((a + b) / Real.sqrt 2 - (a - b) / Real.sqrt 2) / Real.sqrt 2 = b := by
      rw [div_sub_div_same, div_div, hsq]
      ring_nf
    rw [haarDecompose_cons]
    dsimp only
    rw [haarReconstruct_cons, h1, h2, ih]

/-- Counterexample to Claim C3 as stated: a block of length `2 ^ 0 = 1`
(a power of two) decomposes to empty coefficient lists, so the
reconstruction is the empty block, not the input. -/
theorem haar_roundtrip_claim_counterexample :
    ([(5 : ℝ)].length = 2 ^ 0) ∧
      haarReconstruct (haarDecompose [(5 : ℝ)]).1 (haarDecompose [(5 : ℝ)]).2 ≠
        [(5 : ℝ)] := by
  constructor
  · rfl
  · have hd : haarReconstruct (haarDecompose [(5 : ℝ)]).1 (haarDecompose [(5 : ℝ)]).2 =
        ([] : List ℝ) := rfl
    rw [hd]
    simp

/-- Claim C3 (amended): for any input block of power-of-two length at
least 2, reconstructing with the inverse Haar pairing after
`haarDecompose`, with no soft-thresholding applied, returns the input
exactly (over the reals with `sqrt 2`). -/
theorem haar_roundtrip_pow2 (x : List ℝ) (k : ℕ) (hk : 0 < k)
    (hlen : x.length = 2 ^ k) :
    haarReconstruct (haarDecompose x).1 (haarDecompose x).2 = x := by
  apply haar_roundtrip_even
  rw [hlen]
  obtain ⟨m, rfl⟩ := Nat.exists_eq_succ_of_ne_zero hk.ne'
  simp [Nat.pow_succ, Nat.mul_mod_left]

/-- Witness for C3 (amended): the block `[1,2,3,4]` of length `2 ^ 2`
round-trips exactly. -/
theorem haar_roundtrip_pow2_witness :
    ([(1 : ℝ), 2, 3, 4].length = 2 ^ 2) ∧
      haarReconstruct (haarDecompose [(1 : ℝ), 2, 3, 4]).1
        (haarDecompose [(1 : ℝ), 2, 3, 4]).2 = [(1 : ℝ), 2, 3, 4] :=
  ⟨rfl, haar_roundtrip_pow2 _ 2 (by norm_num) rfl⟩

/-
## SpO2 / heart-rate extractor (`spo2_custom.h`, class SpO2Calculator)

Buffers of `uint32_t` are embedded as `ℕ → ℕ` indexed modulo
`SPO2_BUFFER_SIZE = 200`; float fields as `ℝ`; millisecond timestamps as
`ℕ` with C unsigned subtraction embedded as truncated subtraction (valid
under a monotone clock).  The `uint32_t` field `peakThreshold` receives a
float expression in the source, so its update truncates with `Nat.floor`.
Each method takes the current `millis()` reading as an explicit `now`
argument.
-/

structure SpO2State where
  redBuffer : ℕ → ℕ
  irBuffer : ℕ → ℕ
  bufferIndex : ℕ
  sampleCount : ℕ
  redDC : ℝ
  irDC : ℝ
  redAC : ℝ
  irAC : ℝ
  currentSpO2 : ℝ
  currentHeartRate : ℝ
  filteredSpO2 : ℝ
  filteredHeartRate : ℝ
  lastUpdateTime : ℕ
  lastPeakTime : ℕ
  peakCount : ℕ
  lastIR : ℝ
  lastLastIR : ℝ
  peakThreshold : ℕ
  fingerPresent : Bool
  stableFingerCount : ℕ

/-- `SpO2Calculator::init` (spo2_custom.h 54-61). -/
def spo2Init (s : SpO2State) : SpO2State :=
  { s with
    bufferIndex := 0
    sampleCount := 0
    filteredSpO2 := 98
    filteredHeartRate := 75
    fingerPresent := false
    stableFingerCount := 0 }

/-- `SpO2Calculator::getSpO2` (spo2_custom.h 197). -/
def getSpO2 (s : SpO2State) : ℝ := s.filteredSpO2

/-- `SpO2Calculator::getHeartRate` (spo2_custom.h 198). -/
def getHeartRate (s : SpO2State) : ℝ := s.filteredHeartRate

/-- The adaptive-threshold update at the top of
`SpO2Calculator::detectPeak` (spo2_custom.h 157-161); the float blend is
truncated back into the `uint32_t` field. -/
def updThreshold (s : SpO2State) (irValue : ℕ) : ℕ :=
  if s.peakThreshold = 0 then irValue
  else Nat.floor ((s.peakThreshold : ℝ) * 0.95 + (irValue : ℝ) * 0.05)

/-- The heart-rate acceptance step of `SpO2Calculator::detectPeak`
(spo2_custom.h 175-186): band check on the instantaneous rate, then the
outlier/bootstrap test, then the exponential moving average with
`HR_SMOOTHING_FACTOR = 0.15` and `HR_MAX_CHANGE = 25`. -/
def acceptHR (s : SpO2State) (instantHR : ℝ) : SpO2State :=
  if 40 ≤ instantHR ∧ instantHR ≤ 180 then
    if |instantHR - s.filteredHeartRate| ≤ 25 ∨ s.peakCount < 3 then
      { s with
        currentHeartRate := instantHR
        filteredHeartRate := s.filteredHeartRate * (1 - 0.15) + instantHR * 0.15
        peakCount := s.peakCount + 1 }
    else s
  else s

/-- The body run by `SpO2Calculator::detectPeak` when a peak is declared
(spo2_custom.h 169-189): interval gating `300 < interval < 1500` with a
previously recorded peak, then `acceptHR` on `60000/interval`, then
`lastPeakTime = now`. -/
def peakStep (s : SpO2State) (now : ℕ) : SpO2State :=
  let interval := now - s.lastPeakTime
  let s3 :=
    if 300 < interval ∧ interval < 1500 ∧ 0 < s.lastPeakTime then
      acceptHR s (60000 / (interval : ℝ))
    else s
  { s3 with lastPeakTime := now }

/-- `SpO2Calculator::detectPeak` (spo2_custom.h 148-194). -/
def detectPeak (s : SpO2State) (irValue now : ℕ) : SpO2State :=
  if s.fingerPresent = false then
    { s with lastIR := 0, lastLastIR := 0, peakCount := 0 }
  else
    let pt := updThreshold s irValue
    let s1 : SpO2State := { s with peakThreshold := pt }
    let s2 :=
      if s1.lastIR > s1.lastLastIR ∧ s1.lastIR > (irValue : ℝ) ∧
          s1.lastIR > (pt : ℝ) * 1.005 then
        peakStep s1 now
      else s1
    { s2 with lastLastIR := s2.lastIR, lastIR := (irValue : ℝ) }

/-- The circular-buffer write at the top of `SpO2Calculator::addSample`
(spo2_custom.h 64-66), with `SPO2_BUFFER_SIZE = 200`. -/
def writeSample (s : SpO2State) (redValue irValue : ℕ) : SpO2State :=
  { s with
    redBuffer := Function.update s.redBuffer s.bufferIndex redValue
    irBuffer := Function.update s.irBuffer s.bufferIndex irValue
    bufferIndex := (s.bufferIndex + 1) % 200 }

/-- The saturating sample counter of `SpO2Calculator::addSample`
(spo2_custom.h 68-70). -/
def bumpSampleCount (s : SpO2State) : SpO2State :=
  if s.sampleCount < 200 then { s with sampleCount := s.sampleCount + 1 } else s

/-- The finger-presence hysteresis of `SpO2Calculator::addSample`
(spo2_custom.h 75-87): a qualifying sample has
`FINGER_THRESHOLD_LOW < ir < FINGER_THRESHOLD_HIGH`, i.e.
`1500 < ir < 100000`, and `FINGER_STABLE_COUNT = 30`. -/
def fingerUpdate (s : SpO2State) (irValue : ℕ) : SpO2State :=
  if 1500 < irValue ∧ irValue < 100000 then
    let c := s.stableFingerCount + 1
    { s with
      stableFingerCount := c
      fingerPresent := if 30 < c then true else s.fingerPresent }
  else
    let c := if 0 < s.stableFingerCount then s.stableFingerCount - 1
      else s.stableFingerCount
    { s with
      stableFingerCount := c
      fingerPresent := if c = 0 then false else s.fingerPresent }

/-- `SpO2Calculator::addSample` (spo2_custom.h 63-90): circular-buffer
write, sample counting, finger-presence hysteresis, then `detectPeak`. -/
def addSample (s : SpO2State) (redValue irValue now : ℕ) : SpO2State :=
  detectPeak (fingerUpdate (bumpSampleCount (writeSample s redValue irValue)) irValue)
    irValue now

/-- Arithmetic mean of the first `n` slots of a buffered window, the DC
value of spo2_custom.h 101-111. -/
def meanR (buf : ℕ → ℝ) (n : ℕ) : ℝ := (∑ i ∈ Finset.range n, buf i) / (n : ℝ)

/-- Standard deviation of the first `n` slots of a buffered window, the
AC value of spo2_custom.h 113-125. -/
def stdDevR (buf : ℕ → ℝ) (n : ℕ) : ℝ :=
  Real.sqrt ((∑ i ∈ Finset.range n, (buf i - meanR buf n) ^ 2) / (n : ℝ))

/-- The R-ratio of spo2_custom.h 130-131:
`R = (AC_red/DC_red) / (AC_ir/DC_ir)`. -/
def rValue (red ir : ℕ → ℝ) (n : ℕ) : ℝ :=
  (stdDevR red n / meanR red n) / (stdDevR ir n / meanR ir n)

/-- The raw SpO2 estimate of spo2_custom.h 133-139:
`110 - 25*R` clamped into `[70, 100]`. -/
def spo2Of (red ir : ℕ → ℝ) (n : ℕ) : ℝ :=
  max 70 (min 100 (110 - 25 * rValue red ir n))

/-- `SpO2Calculator::calculate` (spo2_custom.h 92-146), gated on finger
presence, `SPO2_MIN_SAMPLES = 50`, the `SPO2_UPDATE_INTERVAL = 300` rate
limit, and the DC/AC divide guards; `SPO2_SMOOTHING_FACTOR = 0.15`. -/
def calculate (s : SpO2State) (now : ℕ) : SpO2State :=
  if s.fingerPresent = false ∨ s.sampleCount < 50 then s
  else if now - s.lastUpdateTime < 300 then s
  else
    let redDCv := meanR (fun i => (s.redBuffer i : ℝ)) s.sampleCount
    let irDCv := meanR (fun i => (s.irBuffer i : ℝ)) s.sampleCount
    let redACv := stdDevR (fun i => (s.redBuffer i : ℝ)) s.sampleCount
    let irACv := stdDevR (fun i => (s.irBuffer i : ℝ)) s.sampleCount
    let s1 : SpO2State :=
      { s with
        lastUpdateTime := now
        redDC := redDCv
        irDC := irDCv
        redAC := redACv
        irAC := irACv }
    if irDCv < 1 ∨ redDCv < 1 ∨ irACv < 1 then s1
    else
      let R := (redACv / redDCv) / (irACv / irDCv)
      let spo2a := 110 - 25 * R
      let spo2b := if 100 < spo2a then (100 : ℝ) else spo2a
      let spo2 := if spo2b < 70 then (70 : ℝ) else spo2b
      if 85 ≤ spo2 ∧ spo2 ≤ 100 then
        { s1 with
          currentSpO2 := spo2
          filteredSpO2 := s1.filteredSpO2 * (1 - 0.15) + spo2 * 0.15 }
      else s1

/-- A concrete all-zero calculator state (buffers zeroed, smoothed values
at their `init` defaults), used by the concrete witnesses. -/
def zeroState : SpO2State :=
  { redBuffer := fun _ => 0
    irBuffer := fun _ => 0
    bufferIndex := 0
    sampleCount := 0
    redDC := 0
    irDC := 0
    redAC := 0
    irAC := 0
    currentSpO2 := 0
    currentHeartRate := 0
    filteredSpO2 := 98
    filteredHeartRate := 75
    lastUpdateTime := 0
    lastPeakTime := 0
    peakCount := 0
    lastIR := 0
    lastLastIR := 0
    peakThreshold := 0
    fingerPresent := false
    stableFingerCount := 0 }

/-
## Projection lemmas for the SpO2 state machine
-/

lemma acceptHR_sfc (s : SpO2State) (h : ℝ) :
    (acceptHR s h).stableFingerCount = s.stableFingerCount := by
  unfold acceptHR
  split_ifs <;> rfl

lemma acceptHR_fp (s : SpO2State) (h : ℝ) :
    (acceptHR s h).fingerPresent = s.fingerPresent := by
  unfold acceptHR
  split_ifs <;> rfl

lemma peakStep_sfc (s : SpO2State) (now : ℕ) :
    (peakStep s now).stableFingerCount = s.stableFingerCount := by
  unfold peakStep
  dsimp only
  split_ifs with h
  · exact acceptHR_sfc _ _
  · rfl

lemma peakStep_fp (s : SpO2State) (now : ℕ) :
    (peakStep s now).fingerPresent = s.fingerPresent := by
  unfold peakStep
  dsimp only
  split_ifs with h
  · exact acceptHR_fp _ _
  · rfl

lemma detectPeak_sfc (s : SpO2State) (i now : ℕ) :
    (detectPeak s i now).stableFingerCount = s.stableFingerCount := by
  unfold detectPeak
  dsimp only
  split_ifs with h1 h2
  · rfl
  · exact peakStep_sfc _ _
  · rfl

lemma detectPeak_fp (s : SpO2State) (i now : ℕ) :
    (detectPeak s i now).fingerPresent = s.fingerPresent := by
  unfold detectPeak
  dsimp only
  split_ifs with h1 h2
  · rfl
  · exact peakStep_fp _ _
  · rfl

lemma bumpSampleCount_sfc (s : SpO2State) :
    (bumpSampleCount s).stableFingerCount = s.stableFingerCount := by
  unfold bumpSampleCount
  split_ifs <;> rfl

lemma bumpSampleCount_fp (s : SpO2State) :
    (bumpSampleCount s).fingerPresent = s.fingerPresent := by
  unfold bumpSampleCount
  split_ifs <;> rfl

lemma fingerUpdate_qualifying (s : SpO2State) (i : ℕ)
    (hq : 1500 < i ∧ i < 100000) :
    (fingerUpdate s i).stableFingerCount = s.stableFingerCount + 1 ∧
      (fingerUpdate s i).fingerPresent =
        (if 30 < s.stableFingerCount + 1 then true else s.fingerPresent) := by
  unfold fingerUpdate
  rw [if_pos hq]
  exact ⟨rfl, rfl⟩

lemma addSample_qualifying (s : SpO2State) (r i n : ℕ)
    (hq : 1500 < i ∧ i < 100000) :
    (addSample s r i n).stableFingerCount = s.stableFingerCount + 1 ∧
      (addSample s r i n).fingerPresent =
        (if 30 < s.stableFingerCount + 1 then true else s.fingerPresent) := by
  unfold addSample
  have hf := fingerUpdate_qualifying (bumpSampleCount (writeSample s r i)) i hq
  constructor
  · rw [detectPeak_sfc, hf.1, bumpSampleCount_sfc]
    rfl
  · rw [detectPeak_fp, hf.2, bumpSampleCount_sfc, bumpSampleCount_fp]
    rfl

/-
## Claim C7: finger-presence hysteresis
-/

/-- Feeding a list of `(red, ir, now)` samples through
`SpO2Calculator::addSample` in order. -/
def feedRun (s : SpO2State) (run : List (ℕ × ℕ × ℕ)) : SpO2State :=
  run.foldl (fun t x => addSample t x.1 x.2.1 x.2.2) s

lemma feedRun_qualifying :
    ∀ (run : List (ℕ × ℕ × ℕ)) (s : SpO2State) (c : ℕ),
      (∀ x ∈ run, 1500 < x.2.1 ∧ x.2.1 < 100000) →
      s.stableFingerCount = c →
      s.fingerPresent = decide (30 < c) →
      (feedRun s run).stableFingerCount = c + run.length ∧
        (feedRun s run).fingerPresent = decide (30 < c + run.length)
  | [], s, c, _, hc, hp => by
    simpa [feedRun] using ⟨hc, hp⟩
  | x :: t, s, c, hq, hc, hp => by
    have hx := hq x (List.mem_cons_self x t)
    have hstep := addSample_qualifying s x.1 x.2.1 x.2.2 hx
    have hc' : (addSample s x.1 x.2.1 x.2.2).stableFingerCount = c + 1 := by
      rw [hstep.1, hc]
    have hp' : (addSample s x.1 x.2.1 x.2.2).fingerPresent = decide (30 < c + 1) := by
      rw [hstep.2, hc, hp]
      by_cases h : 30 < c + 1
      · simp [h]
      · have h2 : ¬ 30 < c := by omega
        simp [h, h2]
    have ih := feedRun_qualifying t (addSample s x.1 x.2.1 x.2.2) (c + 1)
      (fun y hy => hq y (List.mem_cons_of_mem x hy)) hc' hp'
    have hfeed : feedRun s (x :: t) = feedRun (addSample s x.1 x.2.1 x.2.2) t := rfl
    rw [hfeed]
    refine ⟨?_, ?_⟩
    · rw [ih.1]
      simp [List.length_cons]
      omega
    · rw [ih.2]
      congr 1
      simp [List.length_cons]
      omega

/-- Claim C7: from any state with finger presence false and the
stability counter at zero, a run of at most `FINGER_STABLE_COUNT = 30`
consecutive qualifying samples leaves finger presence false, and a run
of strictly more than 30 qualifying samples sets it true. -/
theorem finger_hysteresis (s : SpO2State) (run : List (ℕ × ℕ × ℕ))
    (hfp : s.fingerPresent = false) (hc : s.stableFingerCount = 0)
    (hq : ∀ x ∈ run, 1500 < x.2.1 ∧ x.2.1 < 100000) :
    (run.length ≤ 30 → (feedRun s run).fingerPresent = false) ∧
      (30 < run.length → (feedRun s run).fingerPresent = true) := by
  have h := feedRun_qualifying run s 0 hq hc (by simp [hfp])
  constructor
  · intro hl
    rw [h.2]
    simp
    omega
  · intro hl
    rw [h.2]
    simp
    omega

/-- Witness for C7: 31 qualifying samples with IR value 2000 flip
presence to true from the all-zero state. -/
theorem finger_hysteresis_witness :
    (feedRun zeroState (List.replicate 31 (0, 2000, 0))).fingerPresent = true := by
  have h := finger_hysteresis zeroState (List.replicate 31 (0, 2000, 0)) rfl rfl
    (by
      intro x hx
      rw [List.eq_of_mem_replicate hx]
      exact ⟨by norm_num, by norm_num⟩)
  exact h.2 (by simp)

/-
## Claim C9: band invariant on the smoothed vitals
-/

lemma acceptHR_spo2 (s : SpO2State) (h : ℝ) :
    (acceptHR s h).filteredSpO2 = s.filteredSpO2 := by
  unfold acceptHR
  split_ifs <;> rfl

lemma peakStep_spo2 (s : SpO2State) (now : ℕ) :
    (peakStep s now).filteredSpO2 = s.filteredSpO2 := by
  unfold peakStep
  dsimp only
  split_ifs with h
  · exact acceptHR_spo2 _ _
  · rfl

lemma detectPeak_spo2 (s : SpO2State) (i now : ℕ) :
    (detectPeak s i now).filteredSpO2 = s.filteredSpO2 := by
  unfold detectPeak
  dsimp only
  split_ifs with h1 h2
  · rfl
  · exact peakStep_spo2 _ _
  · rfl

lemma acceptHR_hr_bounds (s : SpO2State) (h : ℝ)
    (h40 : 40 ≤ s.filteredHeartRate) (h180 : s.filteredHeartRate ≤ 180) :
    40 ≤ (acceptHR s h).filteredHeartRate ∧ (acceptHR s h).filteredHeartRate ≤ 180 := by
  unfold acceptHR
  split_ifs with h1 h2
  · dsimp only
    constructor <;> [linarith [h1.1]; linarith [h1.2]]
  · exact ⟨h40, h180⟩
  · exact ⟨h40, h180⟩

lemma peakStep_hr_bounds (s : SpO2State) (now : ℕ)
    (h40 : 40 ≤ s.filteredHeartRate) (h180 : s.filteredHeartRate ≤ 180) :
    40 ≤ (peakStep s now).filteredHeartRate ∧ (peakStep s now).filteredHeartRate ≤ 180 := by
  unfold peakStep
  dsimp only
  split_ifs with h
  · exact acceptHR_hr_bounds _ _ h40 h180
  · exact ⟨h40, h180⟩

lemma detectPeak_hr_bounds (s : SpO2State) (i now : ℕ)
    (h40 : 40 ≤ s.filteredHeartRate) (h180 : s.filteredHeartRate ≤ 180) :
    40 ≤ (detectPeak s i now).filteredHeartRate ∧
      (detectPeak s i now).filteredHeartRate ≤ 180 := by
  unfold detectPeak
  dsimp only
  split_ifs with h1 h2
  · exact ⟨h40, h180⟩
  · exact peakStep_hr_bounds _ _ h40 h180
  · exact ⟨h40, h180⟩

lemma bumpSampleCount_spo2 (s : SpO2State) :
    (bumpSampleCount s).filteredSpO2 = s.filteredSpO2 := by
  unfold bumpSampleCount
  split_ifs <;> rfl

lemma bumpSampleCount_hr (s : SpO2State) :
    (bumpSampleCount s).filteredHeartRate = s.filteredHeartRate := by
  unfold bumpSampleCount
  split_ifs <;> rfl

lemma fingerUpdate_spo2 (s : SpO2State) (i : ℕ) :
    (fingerUpdate s i).filteredSpO2 = s.filteredSpO2 := by
  unfold fingerUpdate
  split_ifs <;> rfl

lemma fingerUpdate_hr (s : SpO2State) (i : ℕ) :
    (fingerUpdate s i).filteredHeartRate = s.filteredHeartRate := by
  unfold fingerUpdate
  split_ifs <;> rfl

lemma calculate_hr (s : SpO2State) (now : ℕ) :
    (calculate s now).filteredHeartRate = s.filteredHeartRate := by
  unfold calculate
  dsimp only
  split_ifs <;> rfl

lemma calculate_spo2_bounds (s : SpO2State) (now : ℕ)
    (h85 : 85 ≤ s.filteredSpO2) (h100 : s.filteredSpO2 ≤ 100) :
    85 ≤ (calculate s now).filteredSpO2 ∧ (calculate s now).filteredSpO2 ≤ 100 := by
  unfold calculate
  dsimp only
  split_ifs
  all_goals try exact ⟨h85, h100⟩
  all_goals
    dsimp only
    rename_i hcond
    obtain ⟨hx, hy⟩ := hcond
    exact ⟨by linarith, by linarith⟩

/-- The states an `SpO2Calculator` can be in after `init()` followed by
any sequence of `addSample`, `calculate` and `detectPeak` calls. -/
inductive ReachableSpO2 : SpO2State → Prop
  | start (s : SpO2State) : ReachableSpO2 (spo2Init s)
  | step_add {s : SpO2State} (r i n : ℕ) :
      ReachableSpO2 s → ReachableSpO2 (addSample s r i n)
  | step_calc {s : SpO2State} (n : ℕ) :
      ReachableSpO2 s → ReachableSpO2 (calculate s n)
  | step_peak {s : SpO2State} (i n : ℕ) :
      ReachableSpO2 s → ReachableSpO2 (detectPeak s i n)

/-- Claim C9: in every reachable state after `init()`, `getSpO2()` lies
in `[85,100]` and `getHeartRate()` lies in `[40,180]`; every operation
preserves the bounds, so an out-of-band value is never exposed. -/
theorem spo2_getters_in_band (s : SpO2State) (h : ReachableSpO2 s) :
    (85 ≤ getSpO2 s ∧ getSpO2 s ≤ 100) ∧
      (40 ≤ getHeartRate s ∧ getHeartRate s ≤ 180) := by
  unfold getSpO2 getHeartRate
  induction h with
  | start s =>
    refine ⟨⟨?_, ?_⟩, ?_, ?_⟩ <;> norm_num [spo2Init]
  | step_add r i n _ ih =>
    rename_i t _
    refine ⟨?_, ?_⟩
    · rw [show (addSample t r i n).filteredSpO2 = t.filteredSpO2 by
        unfold addSample
        rw [detectPeak_spo2, fingerUpdate_spo2, bumpSampleCount_spo2]
        rfl]
      exact ih.1
    · have hb : (fingerUpdate (bumpSampleCount (writeSample t r i)) i).filteredHeartRate
          = t.filteredHeartRate := by
        rw [fingerUpdate_hr, bumpSampleCount_hr]
        rfl
      have := detectPeak_hr_bounds (fingerUpdate (bumpSampleCount (writeSample t r i)) i)
        i n (by rw [hb]; exact ih.2.1) (by rw [hb]; exact ih.2.2)
      exact this
  | step_calc n _ ih =>
    rename_i t _
    refine ⟨calculate_spo2_bounds t n ih.1.1 ih.1.2, ?_⟩
    rw [calculate_hr]
    exact ih.2
  | step_peak i n _ ih =>
    rename_i t _
    refine ⟨?_, detectPeak_hr_bounds t i n ih.2.1 ih.2.2⟩
    rw [detectPeak_spo2]
    exact ih.1

/-- Witness for C9: the initial state reached by `init()` from the
all-zero state satisfies both bands. -/
theorem spo2_getters_in_band_witness :
    (85 ≤ getSpO2 (spo2Init zeroState) ∧ getSpO2 (spo2Init zeroState) ≤ 100) ∧
      (40 ≤ getHeartRate (spo2Init zeroState) ∧
        getHeartRate (spo2Init zeroState) ≤ 180) :=
  spo2_getters_in_band _ (ReachableSpO2.start zeroState)

/-
## Claim C1: the calculate() update law
-/

lemma seqClamp_eq (v : ℝ) :
    (if (if 100 < v then (100 : ℝ) else v) < 70 then (70 : ℝ)
      else if 100 < v then (100 : ℝ) else v) = max 70 (min 100 v) := by
  rcases lt_or_le 100 v with h | h
  · rw [if_pos h, if_neg (by norm_num : ¬(100 : ℝ) < 70),
      min_eq_left (le_of_lt h), max_eq_right (by norm_num : (70 : ℝ) ≤ 100)]
  · rw [if_neg (not_lt.mpr h), min_eq_right h]
    rcases lt_or_le v 70 with h2 | h2
    · rw [if_pos h2, max_eq_left (le_of_lt h2)]
    · rw [if_neg (not_lt.mpr h2), max_eq_right h2]

/-- Claim C1: whenever finger presence is asserted, at least
`SPO2_MIN_SAMPLES = 50` samples have accumulated, the 300 ms update
interval has elapsed, and the DC/AC guards pass, `calculate()` computes
`R = (AC_red/DC_red)/(AC_ir/DC_ir)` from the window's means and standard
deviations, clamps `110 - 25*R` into `[70,100]`, and folds the clamped
estimate into the smoothed SpO2 by exponential moving average exactly
when it lies in `[85,100]`, leaving the smoothed SpO2 unchanged
otherwise. -/
theorem spo2_calculate_updates_iff (s : SpO2State) (now : ℕ)
    (hfp : s.fingerPresent = true)
    (hsc : 50 ≤ s.sampleCount)
    (ht : s.lastUpdateTime + 300 ≤ now)
    (hirdc : 1 ≤ meanR (fun i => (s.irBuffer i : ℝ)) s.sampleCount)
    (hreddc : 1 ≤ meanR (fun i => (s.redBuffer i : ℝ)) s.sampleCount)
    (hirac : 1 ≤ stdDevR (fun i => (s.irBuffer i : ℝ)) s.sampleCount) :
    (calculate s now).filteredSpO2 =
      (if 85 ≤ spo2Of (fun i => (s.redBuffer i : ℝ)) (fun i => (s.irBuffer i : ℝ))
            s.sampleCount ∧
          spo2Of (fun i => (s.redBuffer i : ℝ)) (fun i => (s.irBuffer i : ℝ))
            s.sampleCount ≤ 100 then
        s.filteredSpO2 * (1 - 0.15) +
          spo2Of (fun i => (s.redBuffer i : ℝ)) (fun i => (s.irBuffer i : ℝ))
            s.sampleCount * 0.15
      else s.filteredSpO2) := by
  have h1 : ¬(s.fingerPresent = false ∨ s.sampleCount < 50) := by
    rw [hfp]
    simp
    omega
  have h2 : ¬(now - s.lastUpdateTime < 300) := by omega
  have h3 : ¬(meanR (fun i => (s.irBuffer i : ℝ)) s.sampleCount < 1 ∨
      meanR (fun i => (s.redBuffer i : ℝ)) s.sampleCount < 1 ∨
      stdDevR (fun i => (s.irBuffer i : ℝ)) s.sampleCount < 1) := by
    push_neg
    exact ⟨hirdc, hreddc, hirac⟩
  unfold calculate
  rw [if_neg h1, if_neg h2]
  dsimp only
  rw [if_neg h3]
  unfold spo2Of rValue
  rw [seqClamp_eq]
  split_ifs with h
  · rfl
  · rfl

/-- The concrete state used by the C1 witness: 50 samples buffered,
red channel constant 100, IR channel 5100 once and 5000 otherwise,
finger present. -/
def witState : SpO2State :=
  { zeroState with
    redBuffer := fun _ => 100
    irBuffer := fun i => if i = 0 then 5100 else 5000
    sampleCount := 50
    fingerPresent := true }

lemma witState_ir_mean :
    meanR (fun i => (witState.irBuffer i : ℝ)) witState.sampleCount = 5002 := by
  show meanR (fun i => (((if i = 0 then 5100 else 5000 : ℕ)) : ℝ)) 50 = 5002
  norm_num [meanR, Finset.sum_range_succ]

lemma witState_red_mean :
    meanR (fun i => (witState.redBuffer i : ℝ)) witState.sampleCount = 100 := by
  show meanR (fun i => ((100 : ℕ) : ℝ)) 50 = 100
  norm_num [meanR, Finset.sum_const, Finset.card_range]

lemma witState_ir_sd :
    stdDevR (fun i => (witState.irBuffer i : ℝ)) witState.sampleCount = 14 := by
  show stdDevR (fun i => (((if i = 0 then 5100 else 5000 : ℕ)) : ℝ)) 50 = 14
  unfold stdDevR
  rw [show meanR (fun i => (((if i = 0 then 5100 else 5000 : ℕ)) : ℝ)) 50 = 5002 from by
    norm_num [meanR, Finset.sum_range_succ]]
  rw [show (∑ i ∈ Finset.range 50,
      ((((if i = 0 then 5100 else 5000 : ℕ)) : ℝ) - 5002) ^ 2) = 9800 from by
    norm_num [Finset.sum_range_succ]]
  rw [show (9800 : ℝ) / ((50 : ℕ) : ℝ) = 14 ^ 2 from by norm_num]
  exact Real.sqrt_sq (by norm_num)

/-- Witness for C1: the concrete 50-sample window of `witState` meets
every guard, and the theorem applies to it. -/
theorem spo2_calculate_updates_iff_witness :
    (calculate witState 300).filteredSpO2 =
      (if 85 ≤ spo2Of (fun i => (witState.redBuffer i : ℝ))
            (fun i => (witState.irBuffer i : ℝ)) witState.sampleCount ∧
          spo2Of (fun i => (witState.redBuffer i : ℝ))
            (fun i => (witState.irBuffer i : ℝ)) witState.sampleCount ≤ 100 then
        witState.filteredSpO2 * (1 - 0.15) +
          spo2Of (fun i => (witState.redBuffer i : ℝ))
            (fun i => (witState.irBuffer i : ℝ)) witState.sampleCount * 0.15
      else witState.filteredSpO2) :=
  spo2_calculate_updates_iff witState 300 rfl (by norm_num [witState])
    (by norm_num [witState, zeroState])
    (by rw [witState_ir_mean]; norm_num)
    (by rw [witState_red_mean]; norm_num)
    (by rw [witState_ir_sd]; norm_num)

lemma witState_red_sd :
    stdDevR (fun i => (witState.redBuffer i : ℝ)) witState.sampleCount = 0 := by
  show stdDevR (fun i => ((100 : ℕ) : ℝ)) 50 = 0
  unfold stdDevR
  rw [show meanR (fun i => ((100 : ℕ) : ℝ)) 50 = 100 from by
    norm_num [meanR, Finset.sum_const, Finset.card_range]]
  rw [show (∑ i ∈ Finset.range 50, (((100 : ℕ) : ℝ) - 100) ^ 2) = 0 from by norm_num]
  rw [zero_div]
  exact Real.sqrt_zero

lemma witState_spo2Of :
    spo2Of (fun i => (witState.redBuffer i : ℝ)) (fun i => (witState.irBuffer i : ℝ))
      witState.sampleCount = 100 := by
  unfold spo2Of rValue
  rw [witState_red_sd, zero_div, zero_div]
  rw [show (110 : ℝ) - 25 * 0 = 110 from by norm_num]
  rw [min_eq_left (by norm_num : (100 : ℝ) ≤ 110)]
  rw [max_eq_right (by norm_num : (70 : ℝ) ≤ 100)]

/-- Counterexample to Claim C1 as stated: in the state `witState` with
`lastUpdateTime = 1000`, finger presence is asserted, 50 samples have
accumulated and all DC/AC guards pass, and the clamped raw estimate is
100, inside `[85,100]` — yet `calculate()` at `now = 1100` leaves the
smoothed SpO2 unchanged, because the code additionally requires
`SPO2_UPDATE_INTERVAL = 300` ms to have elapsed since the last update
(only 100 ms have). -/
theorem calculate_claim_counterexample :
    ({ witState with lastUpdateTime := 1000 } : SpO2State).fingerPresent = true ∧
      50 ≤ ({ witState with lastUpdateTime := 1000 } : SpO2State).sampleCount ∧
      (1 ≤ meanR (fun i =>
          (({ witState with lastUpdateTime := 1000 } : SpO2State).irBuffer i : ℝ))
          ({ witState with lastUpdateTime := 1000 } : SpO2State).sampleCount ∧
        1 ≤ meanR (fun i =>
          (({ witState with lastUpdateTime := 1000 } : SpO2State).redBuffer i : ℝ))
          ({ witState with lastUpdateTime := 1000 } : SpO2State).sampleCount ∧
        1 ≤ stdDevR (fun i =>
          (({ witState with lastUpdateTime := 1000 } : SpO2State).irBuffer i : ℝ))
          ({ witState with lastUpdateTime := 1000 } : SpO2State).sampleCount) ∧
      (85 ≤ spo2Of (fun i =>
          (({ witState with lastUpdateTime := 1000 } : SpO2State).redBuffer i : ℝ))
          (fun i =>
          (({ witState with lastUpdateTime := 1000 } : SpO2State).irBuffer i : ℝ))
          ({ witState with lastUpdateTime := 1000 } : SpO2State).sampleCount ∧
        spo2Of (fun i =>
          (({ witState with lastUpdateTime := 1000 } : SpO2State).redBuffer i : ℝ))
          (fun i =>
          (({ witState with lastUpdateTime := 1000 } : SpO2State).irBuffer i : ℝ))
          ({ witState with lastUpdateTime := 1000 } : SpO2State).sampleCount ≤ 100) ∧
      (calculate { witState with lastUpdateTime := 1000 } 1100).filteredSpO2 =
        ({ witState with lastUpdateTime := 1000 } : SpO2State).filteredSpO2 ∧
      ({ witState with lastUpdateTime := 1000 } : SpO2State).filteredSpO2 ≠
        ({ witState with lastUpdateTime := 1000 } : SpO2State).filteredSpO2 * (1 - 0.15) +
          spo2Of (fun i =>
            (({ witState with lastUpdateTime := 1000 } : SpO2State).redBuffer i : ℝ))
            (fun i =>
            (({ witState with lastUpdateTime := 1000 } : SpO2State).irBuffer i : ℝ))
            ({ witState with lastUpdateTime := 1000 } : SpO2State).sampleCount * 0.15 := by
  have hm1 : meanR (fun i =>
      (({ witState with lastUpdateTime := 1000 } : SpO2State).irBuffer i : ℝ))
      ({ witState with lastUpdateTime := 1000 } : SpO2State).sampleCount = 5002 :=
    witState_ir_mean
  have hm2 : meanR (fun i =>
      (({ witState with lastUpdateTime := 1000 } : SpO2State).redBuffer i : ℝ))
      ({ witState with lastUpdateTime := 1000 } : SpO2State).sampleCount = 100 :=
    witState_red_mean
  have hm3 : stdDevR (fun i =>
      (({ witState with lastUpdateTime := 1000 } : SpO2State).irBuffer i : ℝ))
      ({ witState with lastUpdateTime := 1000 } : SpO2State).sampleCount = 14 :=
    witState_ir_sd
  have hsp : spo2Of (fun i =>
      (({ witState with lastUpdateTime := 1000 } : SpO2State).redBuffer i : ℝ))
      (fun i =>
      (({ witState with lastUpdateTime := 1000 } : SpO2State).irBuffer i : ℝ))
      ({ witState with lastUpdateTime := 1000 } : SpO2State).sampleCount = 100 :=
    witState_spo2Of
  refine ⟨rfl, by norm_num [witState], ⟨?_, ?_, ?_⟩, ⟨?_, ?_⟩, ?_, ?_⟩
  · rw [hm1]
    norm_num
  · rw [hm2]
    norm_num
  · rw [hm3]
    norm_num
  · rw [hsp]
    norm_num
  · rw [hsp]
  · unfold calculate
    rw [if_neg (by
      show ¬(({ witState with lastUpdateTime := 1000 } : SpO2State).fingerPresent =
          false ∨ ({ witState with lastUpdateTime := 1000 } : SpO2State).sampleCount < 50)
      push_neg
      exact ⟨by rw [show ({ witState with lastUpdateTime := 1000 } :
          SpO2State).fingerPresent = true from rfl]; simp, by norm_num [witState]⟩)]
    rw [if_pos (show 1100 - ({ witState with lastUpdateTime := 1000 } :
      SpO2State).lastUpdateTime < 300 by norm_num [witState])]
  · rw [hsp]
    show (98 : ℝ) ≠ 98 * (1 - 0.15) + 100 * 0.15
    norm_num

/-
## Claim C8: scale invariance of the R-ratio
-/

lemma meanR_smul (buf : ℕ → ℝ) (n : ℕ) (c : ℝ) :
    meanR (fun i => c * buf i) n = c * meanR buf n := by
  unfold meanR
  rw [← Finset.mul_sum, mul_div_assoc]

lemma stdDevR_smul (buf : ℕ → ℝ) (n : ℕ) (c : ℝ) (hc : 0 ≤ c) :
    stdDevR (fun i => c * buf i) n = c * stdDevR buf n := by
  unfold stdDevR
  rw [meanR_smul]
  rw [Finset.sum_congr rfl (fun i _ => by
    show (c * buf i - c * meanR buf n) ^ 2 = c ^ 2 * (buf i - meanR buf n) ^ 2
    ring)]
  rw [← Finset.mul_sum, mul_div_assoc, Real.sqrt_mul (sq_nonneg c),
    Real.sqrt_sq hc]

/-- Claim C8: multiplying every red and every IR sample of a buffered
window by the same positive constant leaves the R-ratio, and therefore
the clamped SpO2 estimate, unchanged. -/
theorem rValue_scale_invariant (red ir : ℕ → ℝ) (n : ℕ) (c : ℝ) (hc : 0 < c) :
    rValue (fun i => c * red i) (fun i => c * ir i) n = rValue red ir n ∧
      spo2Of (fun i => c * red i) (fun i => c * ir i) n = spo2Of red ir n := by
  have hr : rValue (fun i => c * red i) (fun i => c * ir i) n = rValue red ir n := by
    unfold rValue
    rw [stdDevR_smul red n c hc.le, stdDevR_smul ir n c hc.le,
      meanR_smul red n c, meanR_smul ir n c,
      mul_div_mul_left _ _ (ne_of_gt hc), mul_div_mul_left _ _ (ne_of_gt hc)]
  refine ⟨hr, ?_⟩
  unfold spo2Of
  rw [hr]

/-- Witness for C8: doubling a constant window of ones leaves the
R-ratio and SpO2 estimate unchanged. -/
theorem rValue_scale_invariant_witness :
    rValue (fun i => 2 * (fun _ => (1 : ℝ)) i) (fun i => 2 * (fun _ => (1 : ℝ)) i) 3 =
        rValue (fun _ => (1 : ℝ)) (fun _ => (1 : ℝ)) 3 ∧
      spo2Of (fun i => 2 * (fun _ => (1 : ℝ)) i) (fun i => 2 * (fun _ => (1 : ℝ)) i) 3 =
        spo2Of (fun _ => (1 : ℝ)) (fun _ => (1 : ℝ)) 3 :=
  rValue_scale_invariant (fun _ => 1) (fun _ => 1) 3 2 (by norm_num)

/-
## Claim C2: peak-interval gating in detectPeak
-/

/-- Claim C2 (amended): when a peak is declared, the inter-peak interval
is converted to the instantaneous rate `60000/interval_ms`, and the
smoothed heart rate is folded by exponential moving average exactly when
the interval lies strictly inside `(300,1500)` ms with a previously
recorded peak, the instantaneous rate lies in `[40,180]` bpm, and the
outlier/bootstrap test passes (within `HR_MAX_CHANGE = 25` of the
smoothed estimate, or fewer than 3 accepted peaks); otherwise the
smoothed heart rate is unchanged. -/
theorem detectPeak_gating (s : SpO2State) (irValue now : ℕ)
    (hfp : s.fingerPresent = true)
    (hpk : s.lastIR > s.lastLastIR ∧ s.lastIR > (irValue : ℝ) ∧
      s.lastIR > (updThreshold s irValue : ℝ) * 1.005) :
    (detectPeak s irValue now).filteredHeartRate =
      (if (300 < now - s.lastPeakTime ∧ now - s.lastPeakTime < 1500 ∧
            0 < s.lastPeakTime) ∧
          (40 ≤ (60000 : ℝ) / ((now - s.lastPeakTime : ℕ) : ℝ) ∧
            (60000 : ℝ) / ((now - s.lastPeakTime : ℕ) : ℝ) ≤ 180) ∧
          (|(60000 : ℝ) / ((now - s.lastPeakTime : ℕ) : ℝ) - s.filteredHeartRate| ≤ 25 ∨
            s.peakCount < 3) then
        s.filteredHeartRate * (1 - 0.15) +
          (60000 : ℝ) / ((now - s.lastPeakTime : ℕ) : ℝ) * 0.15
      else s.filteredHeartRate) := by
  unfold detectPeak
  rw [if_neg (by rw [hfp]; simp)]
  dsimp only
  rw [if_pos hpk]
  unfold peakStep acceptHR
  dsimp only
  split_ifs
  all_goals first
    | rfl
    | (exfalso; tauto)

/-- Witness for C2 (amended): a declared peak 600 ms after the previous
one, instantaneous rate 100 bpm, within 25 bpm of the smoothed 75 bpm. -/
theorem detectPeak_gating_witness :
    (detectPeak
        { zeroState with fingerPresent := true, lastIR := 3000, lastPeakTime := 100 }
        1000 700).filteredHeartRate =
      (if (300 < 700 - ({ zeroState with
              fingerPresent := true, lastIR := 3000, lastPeakTime := 100 } :
              SpO2State).lastPeakTime ∧
            700 - ({ zeroState with
              fingerPresent := true, lastIR := 3000, lastPeakTime := 100 } :
              SpO2State).lastPeakTime < 1500 ∧
            0 < ({ zeroState with
              fingerPresent := true, lastIR := 3000, lastPeakTime := 100 } :
              SpO2State).lastPeakTime) ∧
          (40 ≤ (60000 : ℝ) / ((700 - ({ zeroState with
                fingerPresent := true, lastIR := 3000, lastPeakTime := 100 } :
                SpO2State).lastPeakTime : ℕ) : ℝ) ∧
            (60000 : ℝ) / ((700 - ({ zeroState with
                fingerPresent := true, lastIR := 3000, lastPeakTime := 100 } :
                SpO2State).lastPeakTime : ℕ) : ℝ) ≤ 180) ∧
          (|(60000 : ℝ) / ((700 - ({ zeroState with
                fingerPresent := true, lastIR := 3000, lastPeakTime := 100 } :
                SpO2State).lastPeakTime : ℕ) : ℝ) -
              ({ zeroState with
                fingerPresent := true, lastIR := 3000, lastPeakTime := 100 } :
                SpO2State).filteredHeartRate| ≤ 25 ∨
            ({ zeroState with
              fingerPresent := true, lastIR := 3000, lastPeakTime := 100 } :
              SpO2State).peakCount < 3) then
        ({ zeroState with
          fingerPresent := true, lastIR := 3000, lastPeakTime := 100 } :
          SpO2State).filteredHeartRate * (1 - 0.15) +
          (60000 : ℝ) / ((700 - ({ zeroState with
              fingerPresent := true, lastIR := 3000, lastPeakTime := 100 } :
              SpO2State).lastPeakTime : ℕ) : ℝ) * 0.15
      else ({ zeroState with
          fingerPresent := true, lastIR := 3000, lastPeakTime := 100 } :
          SpO2State).filteredHeartRate) :=
  detectPeak_gating _ 1000 700 rfl
    ⟨by norm_num [zeroState], by norm_num [zeroState],
      by norm_num [updThreshold, zeroState]⟩

/-- Counterexample to Claim C2 as stated: with a declared peak, a
previously recorded peak, and the bootstrap active (`peakCount = 0 < 3`),
the 310 ms interval lies inside `[300,1500]` ms, yet the smoothed heart
rate is NOT updated, because the code additionally rejects instantaneous
rates above 180 bpm (`60000/310 > 180`). -/
theorem detectPeak_claim_counterexample :
    (300 ≤ 1310 - ({ zeroState with
        fingerPresent := true, lastIR := 3000, lastPeakTime := 1000 } :
        SpO2State).lastPeakTime ∧
      1310 - ({ zeroState with
        fingerPresent := true, lastIR := 3000, lastPeakTime := 1000 } :
        SpO2State).lastPeakTime ≤ 1500) ∧
      ({ zeroState with
        fingerPresent := true, lastIR := 3000, lastPeakTime := 1000 } :
        SpO2State).peakCount < 3 ∧
      (detectPeak
          { zeroState with fingerPresent := true, lastIR := 3000, lastPeakTime := 1000 }
          1000 1310).filteredHeartRate =
        ({ zeroState with
          fingerPresent := true, lastIR := 3000, lastPeakTime := 1000 } :
          SpO2State).filteredHeartRate ∧
      ({ zeroState with
        fingerPresent := true, lastIR := 3000, lastPeakTime := 1000 } :
        SpO2State).filteredHeartRate ≠
        ({ zeroState with
          fingerPresent := true, lastIR := 3000, lastPeakTime := 1000 } :
          SpO2State).filteredHeartRate * (1 - 0.15) +
          (60000 : ℝ) / ((1310 - ({ zeroState with
              fingerPresent := true, lastIR := 3000, lastPeakTime := 1000 } :
              SpO2State).lastPeakTime : ℕ) : ℝ) * 0.15 := by
  refine ⟨⟨by norm_num [zeroState], by norm_num [zeroState]⟩,
    by norm_num [zeroState], ?_, by norm_num [zeroState]⟩
  unfold detectPeak updThreshold peakStep acceptHR
  norm_num [zeroState]

end VXL
